import Mathlib

/-!
Shallow embedding of the Pomodoro timer/session state machine of the
`pomodoro_V2` repository, transcribed from the `PomodoroApp` component
(the variant with `targetEndTime`, the visibility-change reconciler,
notifications and the localStorage snapshot), together with the
constants module (`WORK_DURATION_MINUTES = 10 / 60`,
`SHORT_BREAK_DURATION_MINUTES = 5`, `LONG_BREAK_DURATION_MINUTES = 15`).

JavaScript numbers are modelled as exact rationals, timestamps as
rational milliseconds, and the fallible asynchronous durable write of
`handleSaveDescription` is split into an invocation step
(`handleSaveDescriptionStart`, everything up to the awaited insert,
including the in-flight guard) and a completion step
(`handleSaveDescriptionFinish`, the success continuation or the
catch/finally blocks), with the write payload carried in the state as
`pendingWrite`.  React `useState` update semantics (every setter inside a
handler reads the render-time snapshot) are reproduced by reading the
pre-handler state for every right-hand side, exactly as the closures do.
The localStorage mirror effect, which runs after every state commit and
saves while `phase ∈ {RUNNING, PAUSED}` and removes otherwise, runs as
`syncSnapshot` after every event.
-/

namespace PomodoroModel

/-- Enumeration `PomodoroPhase` from `types.ts`. -/
inductive PomodoroPhase where
  | IDLE
  | RUNNING
  | PAUSED
  | DESCRIBING
  | BREAK
deriving DecidableEq, Repr

/-- Constant `WORK_DURATION_MINUTES = 10 / 60` from `constants.ts`. -/
def WORK_DURATION_MINUTES : ℚ := 10 / 60

/-- Constant `SHORT_BREAK_DURATION_MINUTES = 5` from `constants.ts`. -/
def SHORT_BREAK_DURATION_MINUTES : ℚ := 5

/-- Constant `LONG_BREAK_DURATION_MINUTES = 15` from `constants.ts`. -/
def LONG_BREAK_DURATION_MINUTES : ℚ := 15

/-- JavaScript `Math.round`: rounds half toward positive infinity. -/
def jsRound (q : ℚ) : ℤ := ⌊q + 1 / 2⌋

/-- JavaScript truthiness of a nullable string: `null` and `""` are falsy. -/
def strTruthy : Option String → Bool
  | none => false
  | some s => s != ""

/-- The ephemeral `taskForDescription` record `{ name, duration }`
(the spec's PendingDescription). -/
structure TaskForDescription where
  name : String
  duration : ℚ
deriving DecidableEq, Repr

/-- A durable `pomodoro_sessions` row as inserted by
`supabaseService.savePomodoroSession` (owner column omitted: one owner). -/
structure SessionRecord where
  taskName : String
  taskDescription : String
  durationMinutes : ℤ
deriving DecidableEq, Repr

/-- The in-flight durable write of `handleSaveDescription`: the payload of
the awaited `savePomodoroSession` call, with `durationMinutes` already
rounded (`Math.round(taskForDescription.duration)` happens before the
await). -/
structure InFlightWrite where
  taskName : String
  durationMinutes : ℤ
  taskDescription : String
deriving DecidableEq, Repr

/-- The object saved to localStorage under `pomodoroTimerState_<user.id>`
(the `stateToSave` literal of the save effect). -/
structure SavedTimerState where
  currentPhase : PomodoroPhase
  timeRemainingInSeconds : ℚ
  pomodorosInCycle : ℕ
  currentTimerTaskName : Option String
  liveDescription : String
  activeTimerPhaseBeforePause : PomodoroPhase
deriving DecidableEq, Repr

/-- The complete mutable state owned by the `PomodoroApp` component that
the timer logic touches, plus the two external stores it drives: the
durable session list (`sessions` models the rows held by the task-record
store) and the localStorage mirror (`localSnapshot`).  `alerts` records
the `alert(...)` calls and `notes` the emitted notifications. -/
structure AppState where
  currentPhase : PomodoroPhase
  timeRemainingInSeconds : ℚ
  pomodorosInCycle : ℕ
  currentTimerTaskName : Option String
  activeTimerPhaseBeforePause : PomodoroPhase
  targetEndTime : Option ℚ
  taskForDescription : Option TaskForDescription
  isDescriptionModalOpen : Bool
  isSaving : Bool
  liveDescription : String
  pendingWrite : Option InFlightWrite
  sessions : List SessionRecord
  localSnapshot : Option SavedTimerState
  alerts : List String
  notes : List (String × String)
deriving DecidableEq, Repr

/-- The break-length policy, the ternary
`(pomodorosInCycle > 0 && pomodorosInCycle % 4 === 0) ? LONG : SHORT`
(in seconds), as written both in `handleAppPhaseChange` and in
`handleStartBreakSession`. -/
def breakDurationSeconds (pomodorosInCycle : ℕ) : ℚ :=
  if pomodorosInCycle > 0 ∧ pomodorosInCycle % 4 = 0
  then LONG_BREAK_DURATION_MINUTES * 60
  else SHORT_BREAK_DURATION_MINUTES * 60

/-- Transcription of `handleAppPhaseChange(newPhase)`.  Every read of
`currentPhase` and `pomodorosInCycle` on a right-hand side uses the
render-time value `s`, as the JavaScript closure does. -/
def handleAppPhaseChange (newPhase : PomodoroPhase) (s : AppState) : AppState :=
  let s1 := if newPhase = .PAUSED ∧ (s.currentPhase = .RUNNING ∨ s.currentPhase = .BREAK)
    then { s with activeTimerPhaseBeforePause := s.currentPhase } else s
  let s2 := { s1 with currentPhase := newPhase }
  match newPhase with
  | .IDLE => { s2 with timeRemainingInSeconds := WORK_DURATION_MINUTES * 60 }
  | .RUNNING =>
      if s.currentPhase = .IDLE ∨ s.currentPhase = .BREAK
      then { s2 with timeRemainingInSeconds := WORK_DURATION_MINUTES * 60 }
      else s2
  | .BREAK =>
      { s2 with timeRemainingInSeconds := breakDurationSeconds s.pomodorosInCycle,
                currentTimerTaskName := none }
  | .PAUSED => s2
  | .DESCRIBING => s2

/-- Transcription of `handleStartWorkSession(taskName)` (the
`requestPermission()` call is an external fire-and-forget side effect). -/
def handleStartWorkSession (taskName : String) (now : ℚ) (s : AppState) : AppState :=
  let duration := WORK_DURATION_MINUTES * 60
  let s1 := { s with timeRemainingInSeconds := duration,
                     targetEndTime := some (now + duration * 1000),
                     currentTimerTaskName := some taskName }
  handleAppPhaseChange .RUNNING s1

/-- Transcription of `handlePauseSession`. -/
def handlePauseSession (s : AppState) : AppState :=
  handleAppPhaseChange .PAUSED { s with targetEndTime := none }

/-- Transcription of `handleResumeSession`. -/
def handleResumeSession (now : ℚ) (s : AppState) : AppState :=
  handleAppPhaseChange s.activeTimerPhaseBeforePause
    { s with targetEndTime := some (now + s.timeRemainingInSeconds * 1000) }

/-- Transcription of `handleStopSession` (the explicit
`localStorage.removeItem` shows up as `localSnapshot := none`). -/
def handleStopSession (s : AppState) : AppState :=
  let s1 := handleAppPhaseChange .IDLE { s with targetEndTime := none }
  { s1 with currentTimerTaskName := none, liveDescription := "", localSnapshot := none }

/-- Transcription of `handleStartBreakSession`. -/
def handleStartBreakSession (now : ℚ) (s : AppState) : AppState :=
  let bd := breakDurationSeconds s.pomodorosInCycle
  let s1 := { s with liveDescription := "",
                     timeRemainingInSeconds := bd,
                     targetEndTime := some (now + bd * 1000) }
  handleAppPhaseChange .BREAK s1

/-- One firing of the interval callback of the core timer effect: the
interval exists only while `(RUNNING ∨ BREAK) ∧ timeRemainingInSeconds > 0`,
and then decrements by one. -/
def tickDecrement (s : AppState) : AppState :=
  if (s.currentPhase = .RUNNING ∨ s.currentPhase = .BREAK) ∧ 0 < s.timeRemainingInSeconds
  then { s with timeRemainingInSeconds := s.timeRemainingInSeconds - 1 }
  else s

/-- The expiry branch of the core timer effect
(`else if (timeRemainingInSeconds === 0)`): a running work interval with a
truthy task name enters DESCRIBING, emits a notification, increments
`pomodorosInCycle` and creates the `taskForDescription` record; an expired
break returns to IDLE.  Note that `targetEndTime` is not touched here. -/
def timerExpire (s : AppState) : AppState :=
  if s.timeRemainingInSeconds = 0 then
    if s.currentPhase = .RUNNING ∧ strTruthy s.currentTimerTaskName then
      match s.currentTimerTaskName with
      | some name =>
          { s with notes := s.notes ++
                     [("Session de travail terminée !",
                       "Il est temps de prendre une pause bien méritée.")],
                   taskForDescription := some { name := name, duration := WORK_DURATION_MINUTES },
                   pomodorosInCycle := s.pomodorosInCycle + 1,
                   isDescriptionModalOpen := true,
                   currentPhase := .DESCRIBING }
      | none => s
    else if s.currentPhase = .BREAK then
      { s with notes := s.notes ++ [("La pause est terminée !", "Prêt(e) à vous reconcentrer ?")],
               currentPhase := .IDLE,
               timeRemainingInSeconds := WORK_DURATION_MINUTES * 60,
               currentTimerTaskName := none }
    else s
  else s

/-- The Clock Reconciler computation inside `handleVisibilityChange`:
`Math.round((targetEndTime - Date.now()) / 1000)`, then the
`newRemainingSeconds <= 0` branch stores `0` and the other branch stores
the rounded value. -/
def reconcile (targetEndTime now : ℚ) : ℚ :=
  if (jsRound ((targetEndTime - now) / 1000) : ℤ) ≤ 0 then 0
  else ((jsRound ((targetEndTime - now) / 1000) : ℤ) : ℚ)

/-- Transcription of the `visibilitychange` handler when the document
becomes visible: guarded by the truthiness of `targetEndTime` (a zero
timestamp is falsy in JavaScript), it overwrites only
`timeRemainingInSeconds` with the reconciled value. -/
def handleVisibilityChange (now : ℚ) (s : AppState) : AppState :=
  match s.targetEndTime with
  | none => s
  | some t =>
      if t = 0 then s
      else { s with timeRemainingInSeconds := reconcile t now }

/-- Alert text of the catch block of `handleSaveDescription`. -/
def SAVE_SESSION_ERROR_ALERT : String :=
  "Erreur: Impossible d\x27enregistrer la session. Veuillez vérifier votre connexion et réessayer."

/-- Invocation half of `handleSaveDescription(data)`: the guard
`if (!taskForDescription || isSaving) return;`, then `setIsSaving(true)`
and the rounded payload of the awaited `savePomodoroSession` call. -/
def handleSaveDescriptionStart (descr : String) (s : AppState) : AppState :=
  match s.taskForDescription with
  | none => s
  | some tfd =>
      if s.isSaving then s
      else { s with isSaving := true,
                    pendingWrite := some { taskName := tfd.name,
                                           durationMinutes := jsRound tfd.duration,
                                           taskDescription := descr } }

/-- Completion half of `handleSaveDescription`: on success the row is
inserted, the modal closes, the ephemeral records are cleared and
`handleAppPhaseChange(BREAK)` runs; on failure only the catch block
(`alert`) runs.  Either way the `finally` block resets `isSaving`. -/
def handleSaveDescriptionFinish (ok : Bool) (s : AppState) : AppState :=
  match s.pendingWrite with
  | none => s
  | some w =>
      if ok then
        let s1 := { s with sessions := s.sessions ++
                             [{ taskName := w.taskName,
                                taskDescription := w.taskDescription,
                                durationMinutes := w.durationMinutes }],
                           isDescriptionModalOpen := false,
                           taskForDescription := none,
                           currentTimerTaskName := none,
                           liveDescription := "",
                           pendingWrite := none }
        let s2 := handleAppPhaseChange .BREAK s1
        { s2 with isSaving := false }
      else
        { s with alerts := s.alerts ++ [SAVE_SESSION_ERROR_ALERT],
                 pendingWrite := none,
                 isSaving := false }

/-- Transcription of the description modal `onClose` handler (cancel
without persistence). -/
def handleDescriptionModalClose (s : AppState) : AppState :=
  handleAppPhaseChange .BREAK
    { s with isDescriptionModalOpen := false,
             taskForDescription := none,
             currentTimerTaskName := none }

/-- The `stateToSave` object of the localStorage save effect. -/
def snapshotOf (s : AppState) : SavedTimerState :=
  { currentPhase := s.currentPhase,
    timeRemainingInSeconds := s.timeRemainingInSeconds,
    pomodorosInCycle := s.pomodorosInCycle,
    currentTimerTaskName := s.currentTimerTaskName,
    liveDescription := s.liveDescription,
    activeTimerPhaseBeforePause := s.activeTimerPhaseBeforePause }

/-- The localStorage mirror effect, which runs after every state commit:
`setItem` while `currentPhase ∈ {RUNNING, PAUSED}` and `removeItem`
otherwise. -/
def syncSnapshot (s : AppState) : AppState :=
  if s.currentPhase = .RUNNING ∨ s.currentPhase = .PAUSED
  then { s with localSnapshot := some (snapshotOf s) }
  else { s with localSnapshot := none }

/-- The events the machine reacts to. -/
inductive Event where
  | startWork (taskName : String) (now : ℚ)
  | pauseSession
  | resumeSession (now : ℚ)
  | stopSession
  | startBreak (now : ℚ)
  | tick
  | expire
  | submitStart (descr : String)
  | submitFinish (ok : Bool)
  | closeDescriptionModal
  | visibilityChange (now : ℚ)
deriving DecidableEq, Repr

/-- Dispatch of an event to its transcribed handler. -/
def applyEvent : Event → AppState → AppState
  | .startWork taskName now, s => handleStartWorkSession taskName now s
  | .pauseSession, s => handlePauseSession s
  | .resumeSession now, s => handleResumeSession now s
  | .stopSession, s => handleStopSession s
  | .startBreak now, s => handleStartBreakSession now s
  | .tick, s => tickDecrement s
  | .expire, s => timerExpire s
  | .submitStart descr, s => handleSaveDescriptionStart descr s
  | .submitFinish ok, s => handleSaveDescriptionFinish ok s
  | .closeDescriptionModal, s => handleDescriptionModalClose s
  | .visibilityChange now, s => handleVisibilityChange now s

/-- One step of the machine: the handler followed by the localStorage
mirror effect. -/
def step (e : Event) (s : AppState) : AppState :=
  syncSnapshot (applyEvent e s)

/-- What the mount-time restore effect finds under
`pomodoroTimerState_<user.id>`: nothing, unparseable JSON (the catch
path), or a parsed `SavedTimerState`. -/
inductive StoredSnapshot where
  | absent
  | corrupt
  | valid (sv : SavedTimerState)
deriving DecidableEq, Repr

/-- The initial component state: every `useState` initializer of
`PomodoroApp`. -/
def initialState : AppState :=
  { currentPhase := .IDLE,
    timeRemainingInSeconds := WORK_DURATION_MINUTES * 60,
    pomodorosInCycle := 0,
    currentTimerTaskName := none,
    activeTimerPhaseBeforePause := .RUNNING,
    targetEndTime := none,
    taskForDescription := none,
    isDescriptionModalOpen := false,
    isSaving := false,
    liveDescription := "",
    pendingWrite := none,
    sessions := [],
    localSnapshot := none,
    alerts := [],
    notes := [] }

/-- Transcription of the mount-time restore effect: a parsed snapshot is
honored only when its phase is RUNNING or PAUSED; any other phase, a
missing entry, or a JSON parse error (the catch path) leaves the default
initial state. -/
def restoreState : StoredSnapshot → AppState
  | .valid sv =>
      if sv.currentPhase = .RUNNING ∨ sv.currentPhase = .PAUSED
      then { initialState with
               currentPhase := sv.currentPhase,
               timeRemainingInSeconds := sv.timeRemainingInSeconds,
               pomodorosInCycle := sv.pomodorosInCycle,
               currentTimerTaskName := sv.currentTimerTaskName,
               liveDescription := sv.liveDescription,
               activeTimerPhaseBeforePause := sv.activeTimerPhaseBeforePause }
      else initialState
  | _ => initialState

end PomodoroModel

namespace PomodoroModel

/-- Helper: `jsRound` is monotone. -/
lemma jsRound_mono {a b : ℚ} (h : a ≤ b) : jsRound a ≤ jsRound b :=
  Int.floor_le_floor (by linarith)

/-- Helper: the two-branch clamp of the visibility handler equals
`max 0 (round ((target - now) / 1000))`. -/
lemma reconcile_eq_max (t now : ℚ) :
    reconcile t now = max 0 ((jsRound ((t - now) / 1000) : ℤ) : ℚ) := by
  unfold reconcile
  rcases le_or_lt (jsRound ((t - now) / 1000)) 0 with h | h
  · rw [if_pos h, eq_comm, max_eq_left]
    exact_mod_cast h
  · rw [if_neg (not_le.mpr h), eq_comm, max_eq_right]
    exact_mod_cast h.le

/-- Helper: `syncSnapshot` is idempotent. -/
lemma syncSnapshot_idem (s : AppState) : syncSnapshot (syncSnapshot s) = syncSnapshot s := by
  unfold syncSnapshot
  split <;> rename_i h <;> simp_all [snapshotOf]

/-- Helper: `syncSnapshot` establishes the mirror condition on its result. -/
lemma syncSnapshot_mirror (x : AppState) :
    (((syncSnapshot x).currentPhase = .RUNNING ∨ (syncSnapshot x).currentPhase = .PAUSED) →
        (syncSnapshot x).localSnapshot = some (snapshotOf (syncSnapshot x))) ∧
    (¬((syncSnapshot x).currentPhase = .RUNNING ∨ (syncSnapshot x).currentPhase = .PAUSED) →
        (syncSnapshot x).localSnapshot = none) := by
  unfold syncSnapshot
  split <;> rename_i h
  · exact ⟨fun _ => by simp [snapshotOf], fun hc => absurd (by simpa using h) hc⟩
  · exact ⟨fun hc => absurd (by simpa using hc) h, fun _ => by simp⟩

/-- Concrete state used by several witnesses: a running work interval for
task "Write report", three pomodoros completed, that has just counted
down to zero (deadline was at 123000 ms). -/
def sREbase : AppState :=
  { initialState with
      currentPhase := .RUNNING,
      timeRemainingInSeconds := 0,
      pomodorosInCycle := 3,
      currentTimerTaskName := some "Write report",
      targetEndTime := some 123000 }

/-- The same state with its localStorage mirror in sync, as the save
effect leaves it. -/
def sRE : AppState := { sREbase with localSnapshot := some (snapshotOf sREbase) }

/-- C4: for every (targetEndTimestamp, now) pair the visibility-change
reconciler overwrites only `timeRemainingInSeconds`, with the value
`max 0 (round ((targetEndTimestamp - now) / 1000))`; the result is
monotonically non-increasing in `now`, and reapplying the handler with the
same pair is idempotent.  The handler requires a truthy (non-zero)
timestamp, per the JavaScript `targetEndTime &&` guard. -/
theorem clock_reconciler_contract (s : AppState) (t now now' : ℚ)
    (ht : s.targetEndTime = some t) (ht0 : t ≠ 0) (hle : now ≤ now') :
    handleVisibilityChange now s = { s with timeRemainingInSeconds := reconcile t now } ∧
    reconcile t now = max 0 ((jsRound ((t - now) / 1000) : ℤ) : ℚ) ∧
    reconcile t now' ≤ reconcile t now ∧
    handleVisibilityChange now (handleVisibilityChange now s) = handleVisibilityChange now s := by
  have hmax := reconcile_eq_max t now
  refine ⟨?_, hmax, ?_, ?_⟩
  · simp [handleVisibilityChange, ht, ht0]
  · rw [hmax, reconcile_eq_max t now']
    have hdiv : (t - now') / 1000 ≤ (t - now) / 1000 := by
      apply div_le_div_of_nonneg_right ?_ ?_ <;> linarith
    exact max_le_max le_rfl (by exact_mod_cast jsRound_mono hdiv)
  · simp [handleVisibilityChange, ht, ht0]

/-- Witness for C4 at the concrete pair (123000 ms, 120000 ms). -/
theorem clock_reconciler_contract_witness :
    handleVisibilityChange 120000 sREbase
        = { sREbase with timeRemainingInSeconds := reconcile 123000 120000 } ∧
    reconcile 123000 120000 = max 0 ((jsRound ((123000 - 120000) / 1000) : ℤ) : ℚ) ∧
    reconcile 123000 121000 ≤ reconcile 123000 120000 ∧
    handleVisibilityChange 120000 (handleVisibilityChange 120000 sREbase)
        = handleVisibilityChange 120000 sREbase :=
  clock_reconciler_contract sREbase 123000 120000 121000 rfl (by norm_num) (by norm_num)


/-- C7: a loaded Local Snapshot is honored exactly when its phase is
RUNNING or PAUSED; an IDLE, BREAK or DESCRIBING snapshot, a corrupt
(unparseable) one, or a missing one all yield the fresh initial state
(IDLE, remainingSeconds = WORK_DURATION_MINUTES * 60,
completedIntervalsInCycle = 0). -/
theorem snapshot_restore_policy :
    (∀ sv : SavedTimerState, sv.currentPhase = .RUNNING ∨ sv.currentPhase = .PAUSED →
      restoreState (.valid sv) = { initialState with
        currentPhase := sv.currentPhase,
        timeRemainingInSeconds := sv.timeRemainingInSeconds,
        pomodorosInCycle := sv.pomodorosInCycle,
        currentTimerTaskName := sv.currentTimerTaskName,
        liveDescription := sv.liveDescription,
        activeTimerPhaseBeforePause := sv.activeTimerPhaseBeforePause }) ∧
    (∀ sv : SavedTimerState,
      sv.currentPhase = .IDLE ∨ sv.currentPhase = .BREAK ∨ sv.currentPhase = .DESCRIBING →
      restoreState (.valid sv) = initialState) ∧
    restoreState .corrupt = initialState ∧
    restoreState .absent = initialState ∧
    initialState.currentPhase = .IDLE ∧
    initialState.timeRemainingInSeconds = WORK_DURATION_MINUTES * 60 ∧
    initialState.pomodorosInCycle = 0 := by
  refine ⟨?_, ?_, rfl, rfl, rfl, rfl, rfl⟩
  · intro sv h
    rcases h with h | h <;> simp [restoreState, h]
  · intro sv h
    rcases h with h | h | h <;> simp [restoreState, h]

/-- Concrete honored snapshot used by the C7 witness. -/
def svRun : SavedTimerState :=
  { currentPhase := .RUNNING, timeRemainingInSeconds := 42, pomodorosInCycle := 2,
    currentTimerTaskName := some "Write report", liveDescription := "notes",
    activeTimerPhaseBeforePause := .RUNNING }

/-- Concrete discarded snapshot used by the C7 witness. -/
def svBreak : SavedTimerState :=
  { currentPhase := .BREAK, timeRemainingInSeconds := 7, pomodorosInCycle := 1,
    currentTimerTaskName := none, liveDescription := "",
    activeTimerPhaseBeforePause := .RUNNING }

/-- Witness for C7: a RUNNING snapshot is restored, a BREAK one is
discarded. -/
theorem snapshot_restore_policy_witness :
    restoreState (.valid svRun) = { initialState with
      currentPhase := .RUNNING, timeRemainingInSeconds := 42, pomodorosInCycle := 2,
      currentTimerTaskName := some "Write report", liveDescription := "notes",
      activeTimerPhaseBeforePause := .RUNNING } ∧
    restoreState (.valid svBreak) = initialState :=
  ⟨snapshot_restore_policy.1 svRun (Or.inl rfl),
   snapshot_restore_policy.2.1 svBreak (Or.inr (Or.inl rfl))⟩

/-- C6: after every step of the machine the localStorage mirror holds
exactly the current TimerState while the phase is RUNNING or PAUSED and
is absent while the phase is IDLE, BREAK or DESCRIBING; in particular it
is absent immediately after `stop()`. -/
theorem local_snapshot_mirror_invariant (e : Event) (s : AppState) :
    (((step e s).currentPhase = .RUNNING ∨ (step e s).currentPhase = .PAUSED) →
        (step e s).localSnapshot = some (snapshotOf (step e s))) ∧
    (((step e s).currentPhase = .IDLE ∨ (step e s).currentPhase = .BREAK ∨
        (step e s).currentPhase = .DESCRIBING) →
        (step e s).localSnapshot = none) ∧
    (step .stopSession s).localSnapshot = none := by
  refine ⟨(syncSnapshot_mirror (applyEvent e s)).1, ?_, ?_⟩
  · intro h
    apply (syncSnapshot_mirror (applyEvent e s)).2
    intro hc
    rcases h with h | h | h <;> rcases hc with hc | hc <;>
      simp only [step] at h <;> rw [h] at hc <;> simp at hc
  · simp [step, applyEvent, handleStopSession, handleAppPhaseChange, syncSnapshot]

/-- Witness for C6: pausing the running witness state leaves a mirrored
snapshot; stopping it removes the snapshot. -/
theorem local_snapshot_mirror_invariant_witness :
    (step .pauseSession sRE).localSnapshot = some (snapshotOf (step .pauseSession sRE)) ∧
    (step .stopSession sRE).localSnapshot = none :=
  ⟨(local_snapshot_mirror_invariant .pauseSession sRE).1
      (Or.inr (by simp [step, applyEvent, handlePauseSession, handleAppPhaseChange,
        syncSnapshot, sRE, sREbase, initialState, snapshotOf])),
   (local_snapshot_mirror_invariant .stopSession sRE).2.2⟩


/-- C9 counterexample: `pause()` while the machine is Idle — a
(phase, event) pair outside the transition table — is not a no-op: it
moves the phase to PAUSED. -/
theorem unlisted_event_not_noop_counterexample :
    step .pauseSession initialState ≠ initialState ∧
    (step .pauseSession initialState).currentPhase = .PAUSED := by
  constructor
  · intro h
    have hc := congrArg AppState.currentPhase h
    simp [step, applyEvent, handlePauseSession, handleAppPhaseChange, syncSnapshot,
      initialState] at hc
  · simp [step, applyEvent, handlePauseSession, handleAppPhaseChange, syncSnapshot,
      initialState]

/-- C9 amended: the machine-internal events are no-ops outside their
guards — a tick with no live countdown, an expiry whose guard fails
(wrong phase or falsy task name), a submit invocation with no
PendingDescription or with a save already in flight, a submit completion
with no write in flight, and a visibility change with no target
timestamp all leave the state unchanged (on any state whose localStorage
mirror is in sync).  The user-action handlers, however, are not guarded
by the machine: `pause()` while Idle changes the phase to PAUSED —
validity of user actions is enforced by the presentation layer only. -/
theorem unlisted_internal_events_are_noops (s : AppState) (hs : syncSnapshot s = s) :
    (¬((s.currentPhase = .RUNNING ∨ s.currentPhase = .BREAK) ∧
        0 < s.timeRemainingInSeconds) → step .tick s = s) ∧
    (s.timeRemainingInSeconds ≠ 0 → step .expire s = s) ∧
    ((s.currentPhase = .IDLE ∨ s.currentPhase = .PAUSED ∨ s.currentPhase = .DESCRIBING) →
        step .expire s = s) ∧
    (s.currentPhase = .RUNNING → strTruthy s.currentTimerTaskName = false →
        step .expire s = s) ∧
    (∀ d, s.taskForDescription = none → step (.submitStart d) s = s) ∧
    (∀ d, s.isSaving = true → step (.submitStart d) s = s) ∧
    (∀ ok, s.pendingWrite = none → step (.submitFinish ok) s = s) ∧
    (∀ now, s.targetEndTime = none → step (.visibilityChange now) s = s) ∧
    (step .pauseSession initialState).currentPhase = .PAUSED := by
  refine ⟨?_, ?_, ?_, ?_, ?_, ?_, ?_, ?_, ?_⟩
  · intro hg
    have hfix : applyEvent .tick s = s := by
      simp [applyEvent, tickDecrement, hg]
    rw [step, hfix, hs]
  · intro hg
    have hfix : applyEvent .expire s = s := by
      simp [applyEvent, timerExpire, hg]
    rw [step, hfix, hs]
  · intro hg
    have hfix : applyEvent .expire s = s := by
      rcases hg with h | h | h <;> simp [applyEvent, timerExpire, h]
    rw [step, hfix, hs]
  · intro hφ htr
    have hfix : applyEvent .expire s = s := by
      simp [applyEvent, timerExpire, hφ, htr]
    rw [step, hfix, hs]
  · intro d hg
    have hfix : applyEvent (.submitStart d) s = s := by
      simp [applyEvent, handleSaveDescriptionStart, hg]
    rw [step, hfix, hs]
  · intro d hg
    have hfix : applyEvent (.submitStart d) s = s := by
      cases htfd : s.taskForDescription <;>
        simp [applyEvent, handleSaveDescriptionStart, htfd, hg]
    rw [step, hfix, hs]
  · intro ok hg
    have hfix : applyEvent (.submitFinish ok) s = s := by
      simp [applyEvent, handleSaveDescriptionFinish, hg]
    rw [step, hfix, hs]
  · intro now hg
    have hfix : applyEvent (.visibilityChange now) s = s := by
      simp [applyEvent, handleVisibilityChange, hg]
    rw [step, hfix, hs]
  · simp [step, applyEvent, handlePauseSession, handleAppPhaseChange, syncSnapshot,
      initialState]

/-- Witness for the amended C9 at concrete states: a tick and an expiry
in the initial Idle state change nothing, and a submit invocation in the
initial state (no PendingDescription) changes nothing. -/
theorem unlisted_internal_events_are_noops_witness :
    step .tick initialState = initialState ∧
    step .expire initialState = initialState ∧
    step (.submitStart "text") initialState = initialState :=
  ⟨(unlisted_internal_events_are_noops initialState
      (by simp [syncSnapshot, initialState])).1
      (by intro h; rcases h with ⟨h | h, _⟩ <;> simp [initialState] at h),
   (unlisted_internal_events_are_noops initialState
      (by simp [syncSnapshot, initialState])).2.2.1 (Or.inl rfl),
   (unlisted_internal_events_are_noops initialState
      (by simp [syncSnapshot, initialState])).2.2.2.2.1 "text" rfl⟩

/-- C8 (divergence from the spec invariant): when a running work
interval expires into DESCRIBING, the code does not clear
`targetEndTime`; the stale deadline survives into the DESCRIBING phase
(and, by the same omission, into the break started by the subsequent
submit), contradicting the invariant that `targetEndTimestamp` is
defined iff the phase is RUNNING or BREAK. -/
theorem target_end_time_not_cleared_on_expiry :
    (step .expire sRE).currentPhase = .DESCRIBING ∧
    (step .expire sRE).targetEndTime = some 123000 := by
  constructor <;>
    simp [step, applyEvent, timerExpire, syncSnapshot, snapshotOf, sRE, sREbase,
      initialState, strTruthy]

/-- C1: a running work interval with an active (truthy) task name whose
countdown has reached zero transitions to DESCRIBING on expiry,
increments `pomodorosInCycle` by exactly one and creates exactly one
PendingDescription `{ taskName, WORK_DURATION_MINUTES }`; moreover a tick
at the expired state is a no-op, and both a second expiry and a tick at
the resulting DESCRIBING state are no-ops, so no run of the machine can
double-count the same expiry. -/
theorem work_expiry_single_completion (s : AppState) (name : String)
    (hp : s.currentPhase = .RUNNING) (hn : s.currentTimerTaskName = some name)
    (hne : name ≠ "") (h0 : s.timeRemainingInSeconds = 0)
    (hs : syncSnapshot s = s) :
    (step .expire s).currentPhase = .DESCRIBING ∧
    (step .expire s).pomodorosInCycle = s.pomodorosInCycle + 1 ∧
    (step .expire s).taskForDescription =
      some { name := name, duration := WORK_DURATION_MINUTES } ∧
    step .tick s = s ∧
    step .expire (step .expire s) = step .expire s ∧
    step .tick (step .expire s) = step .expire s := by
  refine ⟨?_, ?_, ?_, ?_, ?_, ?_⟩
  · simp [step, applyEvent, timerExpire, syncSnapshot, snapshotOf, hp, hn, hne, h0, strTruthy]
  · simp [step, applyEvent, timerExpire, syncSnapshot, snapshotOf, hp, hn, hne, h0, strTruthy]
  · simp [step, applyEvent, timerExpire, syncSnapshot, snapshotOf, hp, hn, hne, h0, strTruthy]
  · have hfix : applyEvent .tick s = s := by
      simp [applyEvent, tickDecrement, h0]
    rw [step, hfix, hs]
  · simp [step, applyEvent, timerExpire, syncSnapshot, snapshotOf, hp, hn, hne, h0, strTruthy]
  · simp [step, applyEvent, tickDecrement, timerExpire, syncSnapshot, snapshotOf, hp, hn,
      hne, h0, strTruthy]

/-- Witness for C1 at the concrete expired running state `sRE`. -/
theorem work_expiry_single_completion_witness :
    (step .expire sRE).currentPhase = .DESCRIBING ∧
    (step .expire sRE).pomodorosInCycle = sRE.pomodorosInCycle + 1 ∧
    (step .expire sRE).taskForDescription =
      some { name := "Write report", duration := WORK_DURATION_MINUTES } ∧
    step .tick sRE = sRE ∧
    step .expire (step .expire sRE) = step .expire sRE ∧
    step .tick (step .expire sRE) = step .expire sRE :=
  work_expiry_single_completion sRE "Write report" rfl rfl (by decide) rfl
    (by simp [syncSnapshot, sRE, sREbase, snapshotOf, initialState])

/-- Concrete DESCRIBING state used by the C2/C3 witnesses: the state
right after the fourth work interval for "Write report" expired. -/
def sDescribing : AppState :=
  { initialState with
      currentPhase := .DESCRIBING,
      timeRemainingInSeconds := 0,
      pomodorosInCycle := 4,
      currentTimerTaskName := some "Write report",
      targetEndTime := some 123000,
      taskForDescription := some { name := "Write report", duration := WORK_DURATION_MINUTES },
      isDescriptionModalOpen := true }

/-- C2: submitting the description while the machine is Describing (with
no save in flight) marks the save in flight without writing yet; a
second submit invocation arriving before the first write completes is
rejected unchanged by the in-flight guard; and the completed submit
persists exactly one PomodoroSession row, carrying the PendingDescription
task name, the submitted description and the rounded duration. -/
theorem submit_persists_exactly_once (s : AppState) (tfd : TaskForDescription)
    (d d' : String)
    (hp : s.currentPhase = .DESCRIBING) (htfd : s.taskForDescription = some tfd)
    (hsv : s.isSaving = false) (hpw : s.pendingWrite = none) :
    (step (.submitStart d) s).isSaving = true ∧
    (step (.submitStart d) s).sessions = s.sessions ∧
    step (.submitStart d') (step (.submitStart d) s) = step (.submitStart d) s ∧
    (step (.submitFinish true) (step (.submitStart d) s)).sessions =
      s.sessions ++ [{ taskName := tfd.name, taskDescription := d,
                       durationMinutes := jsRound tfd.duration }] := by
  refine ⟨?_, ?_, ?_, ?_⟩
  · simp [step, applyEvent, handleSaveDescriptionStart, syncSnapshot, snapshotOf,
      hp, htfd, hsv, hpw]
  · simp [step, applyEvent, handleSaveDescriptionStart, syncSnapshot, snapshotOf,
      hp, htfd, hsv, hpw]
  · simp [step, applyEvent, handleSaveDescriptionStart, syncSnapshot, snapshotOf,
      hp, htfd, hsv, hpw]
  · simp [step, applyEvent, handleSaveDescriptionStart, handleSaveDescriptionFinish,
      handleAppPhaseChange, syncSnapshot, snapshotOf, hp, htfd, hsv, hpw]

/-- Witness for C2 at the concrete DESCRIBING state, with a simulated
double-click ("dup" arriving while the first save is in flight). -/
theorem submit_persists_exactly_once_witness :
    (step (.submitStart "Drafted section 1") sDescribing).isSaving = true ∧
    (step (.submitStart "Drafted section 1") sDescribing).sessions = sDescribing.sessions ∧
    step (.submitStart "dup") (step (.submitStart "Drafted section 1") sDescribing) =
      step (.submitStart "Drafted section 1") sDescribing ∧
    (step (.submitFinish true) (step (.submitStart "Drafted section 1") sDescribing)).sessions =
      sDescribing.sessions ++
        [{ taskName := "Write report", taskDescription := "Drafted section 1",
           durationMinutes := jsRound WORK_DURATION_MINUTES }] :=
  submit_persists_exactly_once sDescribing
    { name := "Write report", duration := WORK_DURATION_MINUTES }
    "Drafted section 1" "dup" rfl rfl rfl rfl

/-- C3: if the durable write fails, the submit is atomic: the machine
stays in DESCRIBING, the PendingDescription is retained unconsumed, no
session row is written, no retry is left in flight, the in-flight flag is
reset, and the only difference from the pre-submit state is the surfaced
error alert. -/
theorem submit_failure_is_atomic (s : AppState) (tfd : TaskForDescription) (d : String)
    (hp : s.currentPhase = .DESCRIBING) (htfd : s.taskForDescription = some tfd)
    (hsv : s.isSaving = false) (hpw : s.pendingWrite = none)
    (hsnap : s.localSnapshot = none) :
    step (.submitFinish false) (step (.submitStart d) s) =
      { s with alerts := s.alerts ++ [SAVE_SESSION_ERROR_ALERT] } ∧
    (step (.submitFinish false) (step (.submitStart d) s)).currentPhase = .DESCRIBING ∧
    (step (.submitFinish false) (step (.submitStart d) s)).taskForDescription = some tfd ∧
    (step (.submitFinish false) (step (.submitStart d) s)).sessions = s.sessions ∧
    (step (.submitFinish false) (step (.submitStart d) s)).isSaving = false ∧
    (step (.submitFinish false) (step (.submitStart d) s)).pendingWrite = none := by
  have hmain : step (.submitFinish false) (step (.submitStart d) s) =
      { s with alerts := s.alerts ++ [SAVE_SESSION_ERROR_ALERT] } := by
    simp [step, applyEvent, handleSaveDescriptionStart, handleSaveDescriptionFinish,
      syncSnapshot, snapshotOf, hp, htfd, hsv, hpw, hsnap]
  refine ⟨hmain, ?_, ?_, ?_, ?_, ?_⟩ <;> rw [hmain] <;> simp [hp, htfd, hsv, hpw]

/-- Witness for C3 at the concrete DESCRIBING state. -/
theorem submit_failure_is_atomic_witness :
    step (.submitFinish false) (step (.submitStart "Drafted section 1") sDescribing) =
      { sDescribing with alerts := sDescribing.alerts ++ [SAVE_SESSION_ERROR_ALERT] } ∧
    (step (.submitFinish false) (step (.submitStart "Drafted section 1") sDescribing)).currentPhase
      = .DESCRIBING ∧
    (step (.submitFinish false) (step (.submitStart "Drafted section 1") sDescribing)).taskForDescription
      = some { name := "Write report", duration := WORK_DURATION_MINUTES } ∧
    (step (.submitFinish false) (step (.submitStart "Drafted section 1") sDescribing)).sessions
      = sDescribing.sessions ∧
    (step (.submitFinish false) (step (.submitStart "Drafted section 1") sDescribing)).isSaving
      = false ∧
    (step (.submitFinish false) (step (.submitStart "Drafted section 1") sDescribing)).pendingWrite
      = none :=
  submit_failure_is_atomic sDescribing
    { name := "Write report", duration := WORK_DURATION_MINUTES }
    "Drafted section 1" rfl rfl rfl rfl rfl

/-- C5: the transition into Break taken by a successful submit uses the
break-length policy evaluated on the post-increment counter: a work
interval expiring at counter `c` submits into a break of
`breakDurationSeconds (c + 1)` seconds, and the policy selects the long
break exactly when the counter is positive and divisible by four (for the
post-increment counter `c + 1 > 0` always holds, so exactly when
`(c + 1) % 4 = 0`); every other positive counter and counter `0` select
the short break. -/
theorem break_length_policy (s : AppState) (name : String) (c : ℕ) (d : String)
    (hp : s.currentPhase = .RUNNING) (hn : s.currentTimerTaskName = some name)
    (hne : name ≠ "") (h0 : s.timeRemainingInSeconds = 0)
    (hc : s.pomodorosInCycle = c)
    (hsv : s.isSaving = false) (hpw : s.pendingWrite = none) :
    (step (.submitFinish true) (step (.submitStart d) (step .expire s))).currentPhase
      = .BREAK ∧
    (step (.submitFinish true) (step (.submitStart d) (step .expire s))).timeRemainingInSeconds
      = breakDurationSeconds (c + 1) ∧
    (∀ n : ℕ, breakDurationSeconds n = LONG_BREAK_DURATION_MINUTES * 60 ↔
        0 < n ∧ n % 4 = 0) ∧
    (∀ n : ℕ, breakDurationSeconds n = SHORT_BREAK_DURATION_MINUTES * 60 ↔
        ¬(0 < n ∧ n % 4 = 0)) ∧
    breakDurationSeconds 0 = SHORT_BREAK_DURATION_MINUTES * 60 := by
  refine ⟨?_, ?_, ?_, ?_, ?_⟩
  · simp [step, applyEvent, timerExpire, handleSaveDescriptionStart,
      handleSaveDescriptionFinish, handleAppPhaseChange, syncSnapshot, snapshotOf,
      hp, hn, hne, h0, hc, hsv, hpw, strTruthy]
  · simp [step, applyEvent, timerExpire, handleSaveDescriptionStart,
      handleSaveDescriptionFinish, handleAppPhaseChange, syncSnapshot, snapshotOf,
      hp, hn, hne, h0, hc, hsv, hpw, strTruthy]
  · intro n
    by_cases h : 0 < n ∧ n % 4 = 0 <;>
      simp [breakDurationSeconds, h, LONG_BREAK_DURATION_MINUTES,
        SHORT_BREAK_DURATION_MINUTES]
  · intro n
    by_cases h : 0 < n ∧ n % 4 = 0 <;>
      simp [breakDurationSeconds, h, LONG_BREAK_DURATION_MINUTES,
        SHORT_BREAK_DURATION_MINUTES]
  · simp [breakDurationSeconds]

/-- Witness for C5 at the concrete state `sRE` (third interval just
expired, so the post-increment counter is 4 and the long break of
`15 * 60` seconds is selected). -/
theorem break_length_policy_witness :
    (step (.submitFinish true) (step (.submitStart "Drafted section 1") (step .expire sRE))).currentPhase
      = .BREAK ∧
    (step (.submitFinish true) (step (.submitStart "Drafted section 1") (step .expire sRE))).timeRemainingInSeconds
      = breakDurationSeconds 4 ∧
    (∀ n : ℕ, breakDurationSeconds n = LONG_BREAK_DURATION_MINUTES * 60 ↔
        0 < n ∧ n % 4 = 0) ∧
    (∀ n : ℕ, breakDurationSeconds n = SHORT_BREAK_DURATION_MINUTES * 60 ↔
        ¬(0 < n ∧ n % 4 = 0)) ∧
    breakDurationSeconds 0 = SHORT_BREAK_DURATION_MINUTES * 60 :=
  break_length_policy sRE "Write report" 3 "Drafted section 1" rfl rfl (by decide)
    rfl rfl rfl rfl
end PomodoroModel
